import Mathlib

/-
Verification of the OpenUno smart-door controller (variant B,
src/main-uno/main-uno.ino), embedded shallowly: the global mutable
state of the sketch becomes an explicit record, and one iteration of
the Arduino loop becomes a pure function of (state, pending command
byte, echo pulse duration).
-/

namespace OpenUno

/-- Servo position when the door is locked (main-uno.ino line 9). -/
def SERVO_LOCKED_POS : Nat := 0

/-- Half-locked servo position (line 10). -/
def SERVO_HALFLOCKED_POS : Nat := 90

/-- Default / unlocked servo position (line 11). -/
def SERVO_UNLOCKED_POS : Nat := 180

/-- Servo position when no object is near and the door is unlocked (line 12). -/
def SERVO_IDLE_AWAY_POS : Nat := 180

/-- Near distance threshold in cm (line 15). -/
def NEAR_DISTANCE : Nat := 30

/-- Mid distance threshold in cm (line 16). -/
def MID_DISTANCE : Nat := 60

/-- Far distance threshold in cm (line 17). -/
def FAR_DISTANCE : Nat := 100

/-- Buzzer frequency for the near band (line 20). -/
def NEAR_FREQ : Nat := 1000

/-- Buzzer frequency for the mid band (line 21). -/
def MID_FREQ : Nat := 500

/-- Buzzer frequency for the far band (line 22). -/
def FAR_FREQ : Nat := 200

/-- The mutable state of the sketch together with the most recent
actuator commands.  `systemActive` is the global boolean of line 27;
`servoAngle` is the last angle passed to `myServo.write`; `buzzer` is
the last buzzer command, where `some f` stands for `tone(buzzer, f, 100)`
and `none` stands for `noTone(buzzer)`. -/
structure SysState where
  systemActive : Bool
  servoAngle : Nat
  buzzer : Option Nat
deriving DecidableEq, Repr

/-- State after `setup()` (lines 29-40): `systemActive` keeps its
declared initial value `true` (line 27), the servo is written to
`SERVO_UNLOCKED_POS` (line 35), and no tone has been emitted. -/
def initState : SysState :=
  { systemActive := true
    servoAngle := SERVO_UNLOCKED_POS
    buzzer := none }

/-- Distance computation of line 68, `distance = duration * 0.034 / 2;`,
with the exact rational `0.034 = 34/1000` and C truncation of the
non-negative result, i.e. natural-number division. -/
def computeDistance (duration : Nat) : Nat :=
  duration * 34 / 2000

/-- Serial-command handling of lines 44-56: at most one pending byte is
consumed; a `D` byte deactivates the system, writes the unlocked servo
angle and silences the buzzer; an `A` byte activates the system; every
other byte is consumed and ignored. -/
def handleCommand (s : SysState) (c : Option Char) : SysState :=
  match c with
  | none => s
  | some cmd =>
      if cmd = 'D' then
        { systemActive := false
          servoAngle := SERVO_UNLOCKED_POS
          buzzer := none }
      else if cmd = 'A' then
        { s with systemActive := true }
      else s

/-- Distance-band dispatch of lines 76-94: the nested if-chain mapping
a distance to the pair (buzzer command, servo angle). -/
def bandOutput (distance : Nat) : Option Nat × Nat :=
  if distance ≤ NEAR_DISTANCE then
    (some NEAR_FREQ, SERVO_LOCKED_POS)
  else if distance ≤ MID_DISTANCE then
    (some MID_FREQ, SERVO_HALFLOCKED_POS)
  else if distance ≤ FAR_DISTANCE then
    (some FAR_FREQ, SERVO_UNLOCKED_POS)
  else
    (none, SERVO_IDLE_AWAY_POS)

/-- One iteration of `loop()` (lines 42-98): first the command step,
then, only if the system is active, the ranging measurement (whose echo
pulse duration is the input `dur`) followed by the band dispatch. -/
def tick (s : SysState) (c : Option Char) (dur : Nat) : SysState :=
  let s1 := handleCommand s c
  if s1.systemActive then
    let d := computeDistance dur
    { s1 with buzzer := (bandOutput d).1, servoAngle := (bandOutput d).2 }
  else s1

/-- Iterated ticks over a list of (pending command byte, echo duration)
inputs, one pair per loop iteration. -/
def runTicks (s : SysState) (inputs : List (Option Char × Nat)) : SysState :=
  inputs.foldl (fun st p => tick st p.1 p.2) s

/-- The state forced by consuming a deactivate byte (lines 47-49):
inactive, unlocked servo angle, silent buzzer. -/
def deactivatedState : SysState :=
  { systemActive := false
    servoAngle := SERVO_UNLOCKED_POS
    buzzer := none }

/-- Helper: once deactivated, any tick whose consumed byte is not the
activate byte leaves the deactivated state fixed, whatever the duration. -/
theorem tick_deactivated_fix (c : Option Char) (d : Nat) (h : c ≠ some 'A') :
    tick deactivatedState c d = deactivatedState := by
  cases c with
  | none => simp [tick, handleCommand, deactivatedState]
  | some ch =>
      by_cases hD : ch = 'D'
      · subst hD
        simp [tick, handleCommand, deactivatedState]
      · have hA : ch ≠ 'A' := fun hh => h (by rw [hh])
        simp [tick, handleCommand, deactivatedState, hD, hA]

/-- Helper: any run of ticks none of which consumes the activate byte
leaves the deactivated state fixed. -/
theorem runTicks_deactivated_fix (inputs : List (Option Char × Nat))
    (hA : ∀ p ∈ inputs, p.1 ≠ some 'A') :
    runTicks deactivatedState inputs = deactivatedState := by
  induction inputs with
  | nil => rfl
  | cons p rest ih =>
      have h1 : p.1 ≠ some 'A' := hA p (List.mem_cons_self p rest)
      have hrest : ∀ q ∈ rest, q.1 ≠ some 'A' :=
        fun q hq => hA q (List.mem_cons_of_mem p hq)
      show runTicks (tick deactivatedState p.1 p.2) rest = deactivatedState
      rw [tick_deactivated_fix p.1 p.2 h1]
      exact ih hrest

/-- C1: every non-negative integer distance falls into exactly one of
the four mutually exclusive, contiguous, gap-free bands
[0,30], (30,60], (60,100], (100,∞), and each band determines exactly one
(buzzer frequency, servo angle) pair. -/
theorem c1_bands_partition_and_determine (d : Nat) :
    ((d ≤ NEAR_DISTANCE) ∨ (NEAR_DISTANCE < d ∧ d ≤ MID_DISTANCE) ∨
      (MID_DISTANCE < d ∧ d ≤ FAR_DISTANCE) ∨ (FAR_DISTANCE < d))
    ∧ ¬(d ≤ NEAR_DISTANCE ∧ (NEAR_DISTANCE < d ∧ d ≤ MID_DISTANCE))
    ∧ ¬(d ≤ NEAR_DISTANCE ∧ (MID_DISTANCE < d ∧ d ≤ FAR_DISTANCE))
    ∧ ¬(d ≤ NEAR_DISTANCE ∧ FAR_DISTANCE < d)
    ∧ ¬((NEAR_DISTANCE < d ∧ d ≤ MID_DISTANCE) ∧ (MID_DISTANCE < d ∧ d ≤ FAR_DISTANCE))
    ∧ ¬((NEAR_DISTANCE < d ∧ d ≤ MID_DISTANCE) ∧ FAR_DISTANCE < d)
    ∧ ¬((MID_DISTANCE < d ∧ d ≤ FAR_DISTANCE) ∧ FAR_DISTANCE < d)
    ∧ (d ≤ NEAR_DISTANCE → bandOutput d = (some NEAR_FREQ, SERVO_LOCKED_POS))
    ∧ (NEAR_DISTANCE < d → d ≤ MID_DISTANCE →
        bandOutput d = (some MID_FREQ, SERVO_HALFLOCKED_POS))
    ∧ (MID_DISTANCE < d → d ≤ FAR_DISTANCE →
        bandOutput d = (some FAR_FREQ, SERVO_UNLOCKED_POS))
    ∧ (FAR_DISTANCE < d → bandOutput d = (none, SERVO_IDLE_AWAY_POS)) := by
  refine ⟨?_, ?_, ?_, ?_, ?_, ?_, ?_, ?_, ?_, ?_, ?_⟩ <;>
    simp only [bandOutput, NEAR_DISTANCE, MID_DISTANCE, FAR_DISTANCE] <;>
    intros <;> first | omega | (split_ifs <;> first | rfl | omega)

/-- Witness for C1 at the concrete distance 45 (mid band). -/
theorem c1_witness : bandOutput 45 = (some MID_FREQ, SERVO_HALFLOCKED_POS) :=
  (c1_bands_partition_and_determine 45).2.2.2.2.2.2.2.2.1 (by decide) (by decide)

/-- C2: consuming the deactivate byte forces the inactive state with the
unlocked servo angle and a silent buzzer, and from that tick on every
subsequent tick that does not consume the activate byte leaves the state
and actuators untouched, whatever distances would be measured. -/
theorem c2_deactivate_latches (s : SysState) (d : Nat)
    (inputs : List (Option Char × Nat)) (hA : ∀ p ∈ inputs, p.1 ≠ some 'A') :
    tick s (some 'D') d = deactivatedState ∧
    runTicks deactivatedState inputs = deactivatedState :=
  ⟨by simp [tick, handleCommand, deactivatedState],
   runTicks_deactivated_fix inputs hA⟩

/-- Witness for C2 on a concrete run with no activate byte. -/
theorem c2_witness :
    tick ⟨true, 0, some 1000⟩ (some 'D') 5 = deactivatedState ∧
    runTicks deactivatedState [(none, 7), (some 'X', 3), (some 'D', 0)] =
      deactivatedState :=
  c2_deactivate_latches ⟨true, 0, some 1000⟩ 5
    [(none, 7), (some 'X', 3), (some 'D', 0)] (by decide)

/-- C3: among the three alerting bands a closer band commands a strictly
higher buzzer frequency and a servo angle strictly closer to the locked
position, and the beyond-far band silences the buzzer and commands the
idle-away angle. -/
theorem c3_urgency_monotone (d1 d2 : Nat) :
    (d1 ≤ NEAR_DISTANCE → NEAR_DISTANCE < d2 → d2 ≤ FAR_DISTANCE →
      ∃ f1 f2 : Nat, (bandOutput d1).1 = some f1 ∧ (bandOutput d2).1 = some f2 ∧
        f2 < f1 ∧
        Nat.dist (bandOutput d1).2 SERVO_LOCKED_POS <
          Nat.dist (bandOutput d2).2 SERVO_LOCKED_POS) ∧
    (NEAR_DISTANCE < d1 → d1 ≤ MID_DISTANCE → MID_DISTANCE < d2 → d2 ≤ FAR_DISTANCE →
      ∃ f1 f2 : Nat, (bandOutput d1).1 = some f1 ∧ (bandOutput d2).1 = some f2 ∧
        f2 < f1 ∧
        Nat.dist (bandOutput d1).2 SERVO_LOCKED_POS <
          Nat.dist (bandOutput d2).2 SERVO_LOCKED_POS) ∧
    (FAR_DISTANCE < d1 → bandOutput d1 = (none, SERVO_IDLE_AWAY_POS)) := by
  refine ⟨?_, ?_, ?_⟩
  · intro h1 h2 h3
    have e1 : bandOutput d1 = (some NEAR_FREQ, SERVO_LOCKED_POS) := by
      unfold bandOutput
      rw [if_pos h1]
    by_cases hm : d2 ≤ MID_DISTANCE
    · have e2 : bandOutput d2 = (some MID_FREQ, SERVO_HALFLOCKED_POS) := by
        unfold bandOutput
        rw [if_neg (Nat.not_le.mpr h2), if_pos hm]
      exact ⟨NEAR_FREQ, MID_FREQ, by rw [e1], by rw [e2], by decide,
        by rw [e1, e2]; decide⟩
    · have e2 : bandOutput d2 = (some FAR_FREQ, SERVO_UNLOCKED_POS) := by
        unfold bandOutput
        rw [if_neg (Nat.not_le.mpr h2), if_neg hm, if_pos h3]
      exact ⟨NEAR_FREQ, FAR_FREQ, by rw [e1], by rw [e2], by decide,
        by rw [e1, e2]; decide⟩
  · intro h1 h2 h3 h4
    have e1 : bandOutput d1 = (some MID_FREQ, SERVO_HALFLOCKED_POS) := by
      unfold bandOutput
      rw [if_neg (Nat.not_le.mpr h1), if_pos h2]
    have e2 : bandOutput d2 = (some FAR_FREQ, SERVO_UNLOCKED_POS) := by
      unfold bandOutput
      rw [if_neg (Nat.not_le.mpr (h1.trans (lt_of_le_of_lt h2 h3))),
        if_neg (Nat.not_le.mpr h3), if_pos h4]
    exact ⟨MID_FREQ, FAR_FREQ, by rw [e1], by rw [e2], by decide,
      by rw [e1, e2]; decide⟩
  · intro h1
    unfold bandOutput
    rw [if_neg (by unfold NEAR_DISTANCE FAR_DISTANCE at *; omega),
      if_neg (by unfold MID_DISTANCE FAR_DISTANCE at *; omega),
      if_neg (Nat.not_le.mpr h1)]

/-- Witness for C3 at the concrete distances 10 (near) and 50 (mid). -/
theorem c3_witness :
    ∃ f1 f2 : Nat, (bandOutput 10).1 = some f1 ∧ (bandOutput 50).1 = some f2 ∧
      f2 < f1 ∧
      Nat.dist (bandOutput 10).2 SERVO_LOCKED_POS <
        Nat.dist (bandOutput 50).2 SERVO_LOCKED_POS :=
  (c3_urgency_monotone 10 50).1 (by decide) (by decide) (by decide)

/-- C4: a tick that begins inactive and consumes no byte samples no
distance (the result does not depend on the duration) and leaves the
whole state, servo command included, unchanged. -/
theorem c4_inactive_frame (s : SysState) (d : Nat) (h : s.systemActive = false) :
    tick s none d = s := by
  simp [tick, handleCommand, h]

/-- Witness for C4 at a concrete inactive state. -/
theorem c4_witness : tick ⟨false, 90, some 500⟩ none 7 = ⟨false, 90, some 500⟩ :=
  c4_inactive_frame ⟨false, 90, some 500⟩ 7 rfl

/-- C5: a consumed serial byte other than the deactivate and activate
bytes leaves the activation state, servo and buzzer unchanged. -/
theorem c5_unknown_byte_ignored (s : SysState) (c : Char)
    (hD : c ≠ 'D') (hA : c ≠ 'A') :
    handleCommand s (some c) = s := by
  simp [handleCommand, hD, hA]

/-- Witness for C5 at the concrete byte X. -/
theorem c5_witness : handleCommand ⟨true, 0, some 1000⟩ (some 'X') =
    ⟨true, 0, some 1000⟩ :=
  c5_unknown_byte_ignored ⟨true, 0, some 1000⟩ 'X' (by decide) (by decide)

/-- C6: with the system active, a zero echo duration yields distance
zero, which lies in the near band, so the tick commands the locked angle
and the near tone, whose frequency is the highest of the three. -/
theorem c6_zero_echo_treated_as_near (s : SysState) (h : s.systemActive = true) :
    computeDistance 0 = 0 ∧ (0 : Nat) ≤ NEAR_DISTANCE ∧
    tick s none 0 =
      { systemActive := true
        servoAngle := SERVO_LOCKED_POS
        buzzer := some NEAR_FREQ } ∧
    MID_FREQ < NEAR_FREQ ∧ FAR_FREQ < NEAR_FREQ := by
  refine ⟨rfl, by decide, ?_, by decide, by decide⟩
  cases s with
  | mk a sv bz =>
      simp only at h
      subst h
      simp [tick, handleCommand, computeDistance, bandOutput,
        NEAR_DISTANCE, NEAR_FREQ, SERVO_LOCKED_POS]

/-- Witness for C6 at a concrete active state. -/
theorem c6_witness :
    computeDistance 0 = 0 ∧ (0 : Nat) ≤ NEAR_DISTANCE ∧
    tick ⟨true, 180, none⟩ none 0 =
      { systemActive := true
        servoAngle := SERVO_LOCKED_POS
        buzzer := some NEAR_FREQ } ∧
    MID_FREQ < NEAR_FREQ ∧ FAR_FREQ < NEAR_FREQ :=
  c6_zero_echo_treated_as_near ⟨true, 180, none⟩ rfl

/-- C7: the tick is a pure function of (state, command, duration), and
repeating a commandless tick at the same duration reproduces the same
state and actuator output. -/
theorem c7_tick_idempotent (s : SysState) (dur : Nat) :
    tick (tick s none dur) none dur = tick s none dur := by
  cases hs : s.systemActive
  · simp [tick, handleCommand, hs]
  · simp [tick, handleCommand, hs]

/-- C8: the computed distance is duration times 0.034, halved, truncated
to an integer (exact rational model of line 68). -/
theorem c8_distance_formula (dur : Nat) :
    computeDistance dur = ⌊((dur : ℚ) * (34 / 1000)) / 2⌋₊ := by
  have h : ((dur : ℚ) * (34 / 1000)) / 2 = ((dur * 34 : ℕ) : ℚ) / ((2000 : ℕ) : ℚ) := by
    push_cast
    ring
  rw [h, Nat.floor_div_eq_div]
  rfl

/-- Helper: one tick preserves membership of the servo angle in
the set of angles 0, 90, 180. -/
theorem tick_servo_mem (s : SysState) (c : Option Char) (d : Nat)
    (h : s.servoAngle = 0 ∨ s.servoAngle = 90 ∨ s.servoAngle = 180) :
    (tick s c d).servoAngle = 0 ∨ (tick s c d).servoAngle = 90 ∨
      (tick s c d).servoAngle = 180 := by
  cases c <;>
    simp only [tick, handleCommand, bandOutput] <;>
    split_ifs <;>
    simp_all [SERVO_LOCKED_POS, SERVO_HALFLOCKED_POS,
      SERVO_UNLOCKED_POS, SERVO_IDLE_AWAY_POS]

/-- Helper: every run of ticks preserves membership of the servo angle in
the set of angles 0, 90, 180. -/
theorem runTicks_servo_mem (inputs : List (Option Char × Nat)) (s : SysState)
    (h : s.servoAngle = 0 ∨ s.servoAngle = 90 ∨ s.servoAngle = 180) :
    (runTicks s inputs).servoAngle = 0 ∨ (runTicks s inputs).servoAngle = 90 ∨
      (runTicks s inputs).servoAngle = 180 := by
  induction inputs generalizing s with
  | nil => exact h
  | cons p rest ih => exact ih (tick s p.1 p.2) (tick_servo_mem s p.1 p.2 h)

/-- C9: after setup and after any sequence of ticks the last commanded
servo angle is one of 0, 90, 180, and every servo position constant the
program writes is one of these values. -/
theorem c9_servo_angle_invariant (inputs : List (Option Char × Nat)) :
    (initState.servoAngle = 0 ∨ initState.servoAngle = 90 ∨
      initState.servoAngle = 180) ∧
    ((runTicks initState inputs).servoAngle = 0 ∨
      (runTicks initState inputs).servoAngle = 90 ∨
      (runTicks initState inputs).servoAngle = 180) ∧
    (SERVO_LOCKED_POS = 0 ∧ SERVO_HALFLOCKED_POS = 90 ∧
      SERVO_UNLOCKED_POS = 180 ∧ SERVO_IDLE_AWAY_POS = 180) :=
  ⟨by decide, runTicks_servo_mem inputs initState (by decide), by decide⟩

/-- C10: at startup the system is active with the servo at the unlocked
angle 180, so a first tick with no pending byte already samples the
distance and applies the band logic. -/
theorem c10_startup_default :
    initState.systemActive = true ∧
    initState.servoAngle = SERVO_UNLOCKED_POS ∧
    SERVO_UNLOCKED_POS = 180 ∧
    ∀ d : Nat, tick initState none d =
      { systemActive := true
        servoAngle := (bandOutput (computeDistance d)).2
        buzzer := (bandOutput (computeDistance d)).1 } := by
  refine ⟨rfl, rfl, rfl, fun d => ?_⟩
  simp [tick, handleCommand, initState]

end OpenUno
